import Mathlib

/-!
Shallow embedding of `src/app.py` (VirtualBox-Manager): a curses front-end
around the external `VBoxManage` tool.  The terminal input stream is modelled
as a list of events: a `getch` call consumes one `key` event (the integer key
code curses would return) and a `getstr` call consumes one `line` event (the
text entered up to the line-submission key).  Provider interaction
(`subprocess.run`) is modelled by a runner function from the argument vector
to a `CmdResult`, and every invocation is recorded in a call trace.

Key codes used by the source: `curses.KEY_UP = 259`, `curses.KEY_DOWN = 258`,
`ord('\n') = 10`, `ord('q') = 113`, and `19` (Ctrl+S) as the wizard skip key.
-/

namespace VBoxManager

/-- One terminal input event: a single key code read by `getch`, or a full
line read by `getstr`. -/
inductive InEvent where
  | key (k : Nat)
  | line (s : String)
deriving DecidableEq, Repr

/-- Result of a `subprocess.run(..., capture_output=True, text=True)` call. -/
structure CmdResult where
  returncode : Int
  stdout : String
  stderr : String
deriving DecidableEq, Repr

def KEY_UP : Nat := 259
def KEY_DOWN : Nat := 258
def KEY_ENTER : Nat := 10
def KEY_Q : Nat := 113
def KEY_SKIP : Nat := 19

/-- One field block of `create_vm` (src/app.py lines 134-140 and its five
repetitions): show the bracketed default, `getch` one key; `q` aborts the
wizard (`none` value), key code 19 (Ctrl+S) resolves to the default, and any
other key falls into `get_user_input`, whose `getstr` consumes the next line
event; the line text (alone) becomes the field value.  Returns `none` when
the input stream is exhausted or ill-formed. -/
def resolveField (d : String) : List InEvent → Option (Option String × List InEvent)
  | .key k :: rest =>
    if k = KEY_Q then some (none, rest)
    else if k = KEY_SKIP then some (some d, rest)
    else
      match rest with
      | .line s :: rest2 => some (some s, rest2)
      | _ => none
  | _ => none

/-- The six field blocks of `create_vm` run in order over their default
values, threading the input stream; an abort (`q`) at any field stops
everything and yields `none` as the value list. -/
def resolveFields : List String → List InEvent → Option (Option (List String) × List InEvent)
  | [], input => some (some [], input)
  | d :: ds, input =>
    match resolveField d input with
    | none => none
    | some (none, rest) => some (none, rest)
    | some (some v, rest) =>
      match resolveFields ds rest with
      | none => none
      | some (none, rest2) => some (none, rest2)
      | some (some vs, rest2) => some (some (v :: vs), rest2)

/-- The default values of `create_vm` (src/app.py lines 120-127), in prompt
order: name, os, memory, cpus, vram, hdd. -/
def wizardDefaults : List String :=
  ["NewVM", "Ubuntu_64", "1024", "2", "128", "10240"]

/-- The six resolved wizard fields. -/
structure CreationRequest where
  name : String
  osType : String
  memory : String
  cpus : String
  vram : String
  hdd : String
deriving DecidableEq, Repr

/-- The request built from the hard-coded defaults. -/
def defaultRequest : CreationRequest :=
  ⟨"NewVM", "Ubuntu_64", "1024", "2", "128", "10240"⟩

/-- The five `VBoxManage` command vectors of `create_vm`
(src/app.py lines 192-198), in source order. -/
def commands (r : CreationRequest) : List (List String) :=
  [["VBoxManage", "createvm", "--name", r.name, "--ostype", r.osType, "--register"],
   ["VBoxManage", "modifyvm", r.name, "--memory", r.memory, "--cpus", r.cpus, "--vram", r.vram],
   ["VBoxManage", "createhd", "--filename", r.name ++ ".vdi", "--size", r.hdd],
   ["VBoxManage", "storagectl", r.name, "--name", "SATA Controller", "--add", "sata"],
   ["VBoxManage", "storageattach", r.name, "--storagectl", "SATA Controller",
    "--port", "0", "--device", "0", "--type", "hdd", "--medium", r.name ++ ".vdi"]]

/-- The exception text raised on a failing command
(src/app.py line 203): the joined command followed by its stderr. -/
def errorMsg (cmd : List String) (err : String) : String :=
  "Error executing command: " ++ String.intercalate " " cmd ++ "\n" ++ err

/-- The command loop of `create_vm` (src/app.py lines 200-203): run each
command in order; the first one with a non-zero return code raises, so later
commands are not run.  Returns the commands actually invoked (in order) and
the raised message, if any. -/
def runCommands (runner : List String → CmdResult) :
    List (List String) → List (List String) × Option String
  | [] => ([], none)
  | cmd :: rest =>
    let res := runner cmd
    if res.returncode ≠ 0 then
      ([cmd], some (errorMsg cmd res.stderr))
    else
      let out := runCommands runner rest
      (cmd :: out.1, out.2)

/-- How `create_vm` hands control back to its caller. -/
inductive WizOut where
  | aborted (rest : List InEvent)
  | finished (rest : List InEvent)
  | starvedW
deriving DecidableEq, Repr

/-- `create_vm` (src/app.py lines 114-213): resolve the six fields in order
(each may abort on `q`), then run the five commands; the first failure is
caught by the surrounding `try`/`except` and displayed, and either way a
final `getch` pause consumes one key before returning.  The result is the
trace of commands invoked together with how the wizard returned. -/
def create_vm (runner : List String → CmdResult) (input : List InEvent) :
    List (List String) × WizOut :=
  match resolveFields wizardDefaults input with
  | none => ([], .starvedW)
  | some (none, rest) => ([], .aborted rest)
  | some (some [n, o, m, c, v, hd], rest) =>
    let out := runCommands runner (commands ⟨n, o, m, c, v, hd⟩)
    match rest with
    | .key _ :: rest2 => (out.1, .finished rest2)
    | _ => (out.1, .starvedW)
  | some (some _, _) => ([], .starvedW)

/-- The page size of the info viewer (src/app.py line 73):
`self.screen.getmaxyx()[0] - 4`, computed in Python's unbounded integers,
so it can be zero or negative on short terminals. -/
def page_size (h : Nat) : Int := (h : Int) - 4

/-- The page count of the info viewer (src/app.py line 75):
`(len(info_lines) + page_size - 1) // page_size`, Python floor division.
Only meaningful when the divisor is non-zero; the caller models the
`ZeroDivisionError` separately. -/
def total_pages (numLines : Nat) (ps : Int) : Int :=
  ((numLines : Int) + ps - 1).fdiv ps

/-- One key of the viewer loop applied to the current page
(src/app.py lines 90-93): Up decrements when positive, Down increments while
below `total_pages - 1`, anything else leaves the page unchanged. -/
def viewerStep (total page : Int) (k : Nat) : Int :=
  if k = KEY_UP ∧ 0 < page then page - 1
  else if k = KEY_DOWN ∧ page < total - 1 then page + 1
  else page

/-- The info viewer loop (src/app.py lines 77-95), rendering elided: read a
key, scroll with Up/Down (clamped), `q` breaks back to the actions menu
returning the unconsumed input; fuel or input exhaustion yields `none`. -/
def viewerLoop (total : Int) : Nat → Int → List InEvent → Option (List InEvent)
  | 0, _, _ => none
  | fuel + 1, page, input =>
    match input with
    | .key k :: rest =>
      if k = KEY_UP ∧ 0 < page then viewerLoop total fuel (page - 1) rest
      else if k = KEY_DOWN ∧ page < total - 1 then viewerLoop total fuel (page + 1) rest
      else if k = KEY_Q then some rest
      else viewerLoop total fuel page rest
    | _ => none

/-- The shared Up/Down navigation of both menu loops
(src/app.py lines 59-62 and 241-244) on a menu of `n` items:
Up decrements `current_row` when positive, Down increments it while below
`n - 1`, anything else leaves it unchanged. -/
def menuStep (n row k : Nat) : Nat :=
  if k = KEY_UP ∧ 0 < row then row - 1
  else if k = KEY_DOWN ∧ row < n - 1 then row + 1
  else row

/-- The action menu items of `vm_actions` (src/app.py lines 48-53). -/
def actionsList (vm : String) : List String :=
  ["Start VM: " ++ vm, "Show VM Info: " ++ vm, "Delete VM: " ++ vm, "Back"]

/-- The external world of the application: the terminal geometry, the parsed
result of each successive `VBoxManage list vms` call (parsing of the list
output is outside the modelled core), the stdout lines of `showvminfo`, and
the runner for captured commands. -/
structure Env where
  height : Nat
  width : Nat
  listVMs : Nat → List (String × String)
  info : String → List String
  run : List String → CmdResult

/-- Which screen was active when the run stopped for lack of input. -/
inductive ScreenTag where
  | top
  | actions
  | viewer
  | wizard
deriving DecidableEq, Repr

/-- How a whole application run ends: a normal quit, an uncaught exception
(IndexError / ZeroDivisionError) unwinding out of `curses.wrapper`, or
exhaustion of the supplied input/fuel while still running. -/
inductive Outcome where
  | exited
  | crashed
  | starved (tag : ScreenTag)
deriving DecidableEq, Repr

/-- How `vm_actions` hands control back to the main loop: a normal `break`
with the surviving `current_row` and unconsumed input, or a terminal outcome
(crash or starvation) together with the row at that moment. -/
inductive VmOut where
  | ret (row : Nat) (rest : List InEvent)
  | diedA (o : Outcome) (row : Nat)
deriving DecidableEq, Repr

/-- The `vm_actions` loop (src/app.py lines 46-102).  `row` is the shared
`self.current_row` field, entering with whatever value the top menu left in
it.  Enter dispatches on the row: 0 starts the VM, 1 fetches `showvminfo`
and runs the paged viewer (page size `height - 4`; a zero page size is the
uncaught `ZeroDivisionError` of line 75), 2 deletes the VM and breaks,
3 breaks; rows ≥ 4 match nothing and the loop continues.  `q` breaks. -/
def vm_actions (env : Env) (vm : String) : Nat → Nat → List InEvent → List (List String) × VmOut
  | 0, row, _ => ([], .diedA (.starved .actions) row)
  | fuel + 1, row, input =>
    match input with
    | .key k :: rest =>
      if k = KEY_UP ∧ 0 < row then vm_actions env vm fuel (row - 1) rest
      else if k = KEY_DOWN ∧ row < (actionsList vm).length - 1 then
        vm_actions env vm fuel (row + 1) rest
      else if k = KEY_ENTER then
        if row = 0 then
          let out := vm_actions env vm fuel row rest
          (["VBoxManage", "startvm", vm] :: out.1, out.2)
        else if row = 1 then
          let c := ["VBoxManage", "showvminfo", vm]
          let lines := env.info vm
          let ps := page_size env.height
          if ps = 0 then ([c], .diedA .crashed row)
          else
            match viewerLoop (total_pages lines.length ps) fuel 0 rest with
            | none => ([c], .diedA (.starved .viewer) row)
            | some rest2 =>
              let out := vm_actions env vm fuel row rest2
              (c :: out.1, out.2)
        else if row = 2 then
          ([["VBoxManage", "unregistervm", vm, "--delete"]], .ret row rest)
        else if row = 3 then ([], .ret row rest)
        else vm_actions env vm fuel row rest
      else if k = KEY_Q then ([], .ret row rest)
      else vm_actions env vm fuel row rest
    | _ => ([], .diedA (.starved .actions) row)

/-- The `VBoxManage list vms` invocation made by `get_vms` on every main-loop
iteration (src/app.py line 15). -/
def listCmd : List String := ["VBoxManage", "list", "vms"]

/-- The top-menu options built each iteration (src/app.py lines 233-235). -/
def optionsOf (vms : List (String × String)) : List String :=
  "Create New VM" :: (vms.map fun vm => "Select VM: " ++ vm.1) ++ ["Quit"]

/-- The `while True` loop of `main` (src/app.py lines 231-254).  Each
iteration re-runs `get_vms` (recorded as a `list vms` call; `n` counts these
calls so the listing may change between iterations), rebuilds the options,
and reads a key.  Enter on row 0 runs the wizard, on the last row breaks
(quit), otherwise indexes `self.vms[row - 1]` — an IndexError (crash) when
that index is out of range — and enters `vm_actions` with the shared row.
The result is the call trace, the outcome, and the final `current_row`. -/
def mainLoop (env : Env) : Nat → Nat → Nat → List InEvent → List (List String) × Outcome × Nat
  | 0, _, row, _ => ([], .starved .top, row)
  | fuel + 1, n, row, input =>
    let vms := env.listVMs n
    let options := optionsOf vms
    match input with
    | .key k :: rest =>
      if k = KEY_UP ∧ 0 < row then
        let out := mainLoop env fuel (n + 1) (row - 1) rest
        (listCmd :: out.1, out.2)
      else if k = KEY_DOWN ∧ row < options.length - 1 then
        let out := mainLoop env fuel (n + 1) (row + 1) rest
        (listCmd :: out.1, out.2)
      else if k = KEY_ENTER then
        if row = 0 then
          match create_vm env.run rest with
          | (wc, .aborted rest2) =>
            let out := mainLoop env fuel (n + 1) row rest2
            (listCmd :: (wc ++ out.1), out.2)
          | (wc, .finished rest2) =>
            let out := mainLoop env fuel (n + 1) row rest2
            (listCmd :: (wc ++ out.1), out.2)
          | (wc, .starvedW) => (listCmd :: wc, .starved .wizard, row)
        else if row = options.length - 1 then ([listCmd], .exited, row)
        else
          if h : row - 1 < vms.length then
            match vm_actions env (vms.get ⟨row - 1, h⟩).1 fuel row rest with
            | (ac, .ret row2 rest2) =>
              let out := mainLoop env fuel (n + 1) row2 rest2
              (listCmd :: (ac ++ out.1), out.2)
            | (ac, .diedA o row2) => (listCmd :: ac, o, row2)
          else ([listCmd], .crashed, row)
      else if k = KEY_Q then ([listCmd], .exited, row)
      else
        let out := mainLoop env fuel (n + 1) row rest
        (listCmd :: out.1, out.2)
    | _ => ([listCmd], .starved .top, row)

/-- `VBoxManager.main` (src/app.py lines 215-254): after the splash screen's
single `getch` (one key consumed), run the menu loop with `current_row = 0`
(set in `__init__`) and the `get_vms` call counter at 0. -/
def appRun (env : Env) (fuel : Nat) (input : List InEvent) :
    List (List String) × Outcome × Nat :=
  match input with
  | .key _ :: rest => mainLoop env fuel 0 0 rest
  | _ => ([], .starved .top, 0)

/-- The input a single wizard field can receive at its prompt without
aborting: the skip key, or a first key followed by the entered line. -/
inductive FieldInput where
  | skip
  | entry (k : Nat) (s : String)
deriving DecidableEq, Repr

/-- The terminal events a field input occupies in the stream. -/
def FieldInput.events : FieldInput → List InEvent
  | .skip => [.key KEY_SKIP]
  | .entry k s => [.key k, .line s]

/-- A field input is valid when its decision key is neither `q` nor the
skip key (those are handled before free-text entry starts). -/
def FieldInput.valid : FieldInput → Prop
  | .skip => True
  | .entry k _ => k ≠ KEY_Q ∧ k ≠ KEY_SKIP

instance : DecidablePred FieldInput.valid := fun b =>
  match b with
  | .skip => isTrue trivial
  | .entry k _ => inferInstanceAs (Decidable (k ≠ KEY_Q ∧ k ≠ KEY_SKIP))

/-- The value a valid field input resolves to, given the field's default. -/
def FieldInput.value (d : String) : FieldInput → String
  | .skip => d
  | .entry _ s => s

/-- The event stream of a sequence of field inputs. -/
def blocksEvents (bs : List FieldInput) : List InEvent :=
  (bs.map FieldInput.events).flatten

/-- Modelled from the spec: the page-count formula the specification states
for the viewer, `max(1, ceil(L / P))` — at least one page even when the line
list is empty.  Stated for comparison with `total_pages`. -/
def specTotalPages (numLines : Nat) (ps : Int) : Int :=
  max 1 (((numLines : Int) + ps - 1).fdiv ps)

/-- Modelled from the spec: the page-size formula the specification states,
`max(1, surfaceHeight - headerFooterReserve)` with the source's reserve of
4 rows.  Stated for comparison with `page_size`. -/
def specPageSize (h : Nat) : Int := max 1 ((h : Int) - 4)

/-- A runner on which every command succeeds. -/
def okRun : List String → CmdResult := fun _ => ⟨0, "", ""⟩

/-- A runner failing exactly the `modifyvm` commands. -/
def failModify : List String → CmdResult := fun c =>
  if c.getD 1 "" = "modifyvm" then ⟨1, "", "bad"⟩ else ⟨0, "", ""⟩

/-- A runner on which every command fails. -/
def failRun : List String → CmdResult := fun _ => ⟨1, "", "boom"⟩

section Lemmas

/-- When every command succeeds, the command loop runs all of them in order
and raises nothing. -/
theorem runCommands_allOk (runner : List String → CmdResult) (cs : List (List String))
    (h : ∀ c ∈ cs, (runner c).returncode = 0) :
    runCommands runner cs = (cs, none) := by
  induction cs with
  | nil => rfl
  | cons c cs ih =>
    have hc : (runner c).returncode = 0 := h c (List.mem_cons_self c cs)
    simp [runCommands, hc, ih fun d hd => h d (List.mem_cons_of_mem c hd)]

/-- When the first failing command is the `i`-th one, the loop runs exactly
the first `i + 1` commands and raises the message built from the failing
command and its stderr. -/
theorem runCommands_firstFail (runner : List String → CmdResult) :
    ∀ (cs : List (List String)) (i : Nat), i < cs.length →
    (∀ j, j < i → (runner (cs.getD j [])).returncode = 0) →
    (runner (cs.getD i [])).returncode ≠ 0 →
    runCommands runner cs =
      (cs.take (i + 1), some (errorMsg (cs.getD i []) (runner (cs.getD i [])).stderr)) := by
  intro cs
  induction cs with
  | nil => intro i hi; exact absurd hi (by simp)
  | cons c cs ih =>
    intro i hi hok hfail
    cases i with
    | zero =>
      simp only [List.getD_cons_zero] at hfail ⊢
      simp [runCommands, hfail]
    | succ n =>
      have h0 : (runner c).returncode = 0 := by
        have := hok 0 (Nat.succ_pos n)
        simpa using this
      have ihh := ih n (by simpa using hi)
        (fun j hj => by
          have := hok (j + 1) (Nat.succ_lt_succ hj)
          simpa using this)
        (by simpa using hfail)
      simp [runCommands, h0, ihh]

/-- A valid field input resolves to its value and consumes exactly its own
events. -/
theorem resolveField_block (b : FieldInput) (d : String) (rest : List InEvent)
    (hb : b.valid) :
    resolveField d (b.events ++ rest) = some (some (b.value d), rest) := by
  cases b with
  | skip => rfl
  | entry k s =>
    obtain ⟨h1, h2⟩ := hb
    simp [FieldInput.events, FieldInput.value, resolveField, h1, h2]

/-- A full sequence of valid field inputs, one per field, resolves every
field to its block's value and consumes exactly the blocks' events. -/
theorem resolveFields_blocks :
    ∀ (bs : List FieldInput) (ds : List String) (rest : List InEvent),
    (∀ b ∈ bs, b.valid) → bs.length = ds.length →
    resolveFields ds (blocksEvents bs ++ rest) =
      some (some (List.zipWith FieldInput.value ds bs), rest) := by
  intro bs
  induction bs with
  | nil =>
    intro ds rest _ hlen
    cases ds with
    | nil => rfl
    | cons d ds2 => simp at hlen
  | cons b bs ih =>
    intro ds rest hv hlen
    cases ds with
    | nil => simp at hlen
    | cons d ds2 =>
      have hb : b.valid := hv b (List.mem_cons_self b bs)
      have hev : blocksEvents (b :: bs) = b.events ++ blocksEvents bs := by
        simp [blocksEvents]
      rw [hev, List.append_assoc]
      simp only [resolveFields]
      rw [resolveField_block b d _ hb]
      dsimp only
      rw [ih ds2 rest (fun x hx => hv x (List.mem_cons_of_mem b hx)) (by simpa using hlen)]
      rfl

/-- Pressing `q` at the prompt after any proper prefix of resolved fields
aborts the whole field sequence, leaving the rest of the input untouched. -/
theorem resolveFields_blocks_q :
    ∀ (bs : List FieldInput) (ds : List String) (rest : List InEvent),
    (∀ b ∈ bs, b.valid) → bs.length < ds.length →
    resolveFields ds (blocksEvents bs ++ .key KEY_Q :: rest) = some (none, rest) := by
  intro bs
  induction bs with
  | nil =>
    intro ds rest _ hlen
    cases ds with
    | nil => simp at hlen
    | cons d ds2 => rfl
  | cons b bs ih =>
    intro ds rest hv hlen
    cases ds with
    | nil => simp at hlen
    | cons d ds2 =>
      have hb : b.valid := hv b (List.mem_cons_self b bs)
      have hev : blocksEvents (b :: bs) = b.events ++ blocksEvents bs := by
        simp [blocksEvents]
      rw [hev, List.append_assoc]
      simp only [resolveFields]
      rw [resolveField_block b d _ hb]
      dsimp only
      rw [ih ds2 rest (fun x hx => hv x (List.mem_cons_of_mem b hx)) (by simpa using hlen)]

/-- One top-menu iteration on empty input: the listing is fetched, then the
loop starves at the key read with `current_row` untouched. -/
theorem mainLoop_nil (env : Env) (fuel n row : Nat) :
    mainLoop env (fuel + 1) n row [] = ([listCmd], .starved .top, row) := rfl

end Lemmas

section Claims

/-- Claim C1: pressing the skip key (code 19, Ctrl+S) at each of the six
wizard prompts and then submitting yields the hard-coded default request
(name "NewVM", osType "Ubuntu_64", memory "1024", cpus "2", vram "128",
hdd "10240"), each value passed verbatim as a string into the five
`VBoxManage` command vectors. -/
theorem create_vm_skip_all_uses_defaults (runner : List String → CmdResult)
    (rest : List InEvent) :
    ((∀ c ∈ commands defaultRequest, (runner c).returncode = 0) →
      create_vm runner
        (.key KEY_SKIP :: .key KEY_SKIP :: .key KEY_SKIP :: .key KEY_SKIP ::
         .key KEY_SKIP :: .key KEY_SKIP :: .key 32 :: rest) =
        (commands defaultRequest, .finished rest))
    ∧ commands defaultRequest =
      [["VBoxManage", "createvm", "--name", "NewVM", "--ostype", "Ubuntu_64", "--register"],
       ["VBoxManage", "modifyvm", "NewVM", "--memory", "1024", "--cpus", "2", "--vram", "128"],
       ["VBoxManage", "createhd", "--filename", "NewVM.vdi", "--size", "10240"],
       ["VBoxManage", "storagectl", "NewVM", "--name", "SATA Controller", "--add", "sata"],
       ["VBoxManage", "storageattach", "NewVM", "--storagectl", "SATA Controller",
        "--port", "0", "--device", "0", "--type", "hdd", "--medium", "NewVM.vdi"]] := by
  constructor
  · intro h
    have hrc := runCommands_allOk runner (commands defaultRequest) h
    show ((runCommands runner (commands defaultRequest)).1, WizOut.finished rest) = _
    rw [hrc]
  · rfl

/-- Claim C1 witness: the all-skip run against a concrete all-success
runner invokes exactly the five default commands. -/
theorem create_vm_skip_all_uses_defaults_app :
    create_vm okRun
      (.key KEY_SKIP :: .key KEY_SKIP :: .key KEY_SKIP :: .key KEY_SKIP ::
       .key KEY_SKIP :: .key KEY_SKIP :: .key 32 :: []) =
      (commands defaultRequest, .finished []) :=
  (create_vm_skip_all_uses_defaults okRun []).1 (by decide)

/-- Claim C2: pressing `q` at any of the six wizard prompts — after any
valid resolution of the earlier fields — returns immediately with no
provider call at all: the call trace is empty and the wizard reports an
abort, leaving the remaining input unconsumed. -/
theorem create_vm_quit_no_provider_calls (runner : List String → CmdResult)
    (bs : List FieldInput) (rest : List InEvent)
    (hv : ∀ b ∈ bs, b.valid) (hlen : bs.length < 6) :
    create_vm runner (blocksEvents bs ++ .key KEY_Q :: rest) = ([], .aborted rest) := by
  have h6 : bs.length < wizardDefaults.length := by simpa [wizardDefaults] using hlen
  rw [create_vm, resolveFields_blocks_q bs wizardDefaults rest hv h6]

/-- Claim C2 witness: skipping the name, typing "x" for the OS type, then
pressing `q` at the memory prompt makes no provider call. -/
theorem create_vm_quit_no_provider_calls_app :
    create_vm okRun (blocksEvents [.skip, .entry 97 "x"] ++ .key KEY_Q :: []) =
      ([], .aborted []) :=
  create_vm_quit_no_provider_calls okRun [.skip, .entry 97 "x"] [] (by decide) (by decide)

/-- Claim C3: submission is exactly five commands in strict order —
create/register by name and OS type, modify memory/cpus/vram, create the
disk named from the VM name, create the SATA storage controller, attach the
disk — the first non-zero return code stops the remaining commands and
raises a message made of the failing command and its stderr, and when all
five succeed nothing is raised. -/
theorem submit_five_commands_first_failure_aborts
    (r : CreationRequest) (runner : List String → CmdResult) :
    (commands r).length = 5
    ∧ ((∀ c ∈ commands r, (runner c).returncode = 0) →
        runCommands runner (commands r) = (commands r, none))
    ∧ (∀ i, i < 5 →
        (∀ j, j < i → (runner ((commands r).getD j [])).returncode = 0) →
        (runner ((commands r).getD i [])).returncode ≠ 0 →
        runCommands runner (commands r) =
          ((commands r).take (i + 1),
           some (errorMsg ((commands r).getD i [])
             (runner ((commands r).getD i [])).stderr)))
    ∧ (commands r).getD 0 [] =
        ["VBoxManage", "createvm", "--name", r.name, "--ostype", r.osType, "--register"]
    ∧ (commands r).getD 1 [] =
        ["VBoxManage", "modifyvm", r.name, "--memory", r.memory, "--cpus", r.cpus, "--vram", r.vram]
    ∧ (commands r).getD 2 [] =
        ["VBoxManage", "createhd", "--filename", r.name ++ ".vdi", "--size", r.hdd]
    ∧ (commands r).getD 3 [] =
        ["VBoxManage", "storagectl", r.name, "--name", "SATA Controller", "--add", "sata"]
    ∧ (commands r).getD 4 [] =
        ["VBoxManage", "storageattach", r.name, "--storagectl", "SATA Controller",
         "--port", "0", "--device", "0", "--type", "hdd", "--medium", r.name ++ ".vdi"] := by
  refine ⟨rfl, runCommands_allOk runner (commands r), ?_, rfl, rfl, rfl, rfl, rfl⟩
  intro i hi hok hfail
  exact runCommands_firstFail runner (commands r) i (by simpa [commands] using hi) hok hfail

/-- Claim C3 witness: against a runner failing the second (modifyvm)
command, exactly the first two commands run and the raised message is built
from the failing command and its stderr. -/
theorem submit_five_commands_first_failure_aborts_app :
    runCommands failModify (commands defaultRequest) =
      ((commands defaultRequest).take 2,
       some (errorMsg ((commands defaultRequest).getD 1 [])
         (failModify ((commands defaultRequest).getD 1 [])).stderr)) :=
  (submit_five_commands_first_failure_aborts defaultRequest failModify).2.2.1 1
    (by decide) (by decide) (by decide)

/-- A single-VM world on a 30x80 terminal. -/
def envOne : Env := ⟨30, 80, fun _ => [("alpha", "u1")], fun _ => [], okRun⟩

/-- A five-VM world on a 30x80 terminal. -/
def envFive : Env :=
  ⟨30, 80, fun _ => [("v1", "a"), ("v2", "b"), ("v3", "c"), ("v4", "d"), ("v5", "e")],
   fun _ => [], okRun⟩

/-- A single-VM world on a terminal only 4 rows high. -/
def envShort : Env := ⟨4, 80, fun _ => [("alpha", "u1")], fun _ => ["l1", "l2"], okRun⟩

/-- An empty world whose every command fails. -/
def envAllFail : Env := ⟨30, 80, fun _ => [], fun _ => [], failRun⟩

/-- An empty world on a 4-row terminal. -/
def envShortEmpty : Env := ⟨4, 80, fun _ => [], fun _ => [], okRun⟩

/-- Claim C4 counterexample: after the splash key, Down, Enter (entering the
actions menu of "alpha" with row 1), Down, `q` (leaving it with row 2), the
run starves exactly at re-entry to the top menu: the listing was re-fetched
(a third `list vms` call) but `current_row` is 2, not 0 — the selection is
not reset on re-entry. -/
theorem topmenu_reentry_row_not_reset_cex :
    appRun envOne 10 [.key 0, .key KEY_DOWN, .key KEY_ENTER, .key KEY_DOWN, .key KEY_Q] =
      ([listCmd, listCmd, listCmd], .starved .top, 2) ∧ (2 : Nat) ≠ 0 :=
  ⟨rfl, by decide⟩

/-- Claim C4 (amended): on every (re-)entry to the top menu the VM listing
is re-fetched from the provider (a `list vms` call opens the iteration), but
`current_row` is not reset — whatever value the previous screen left in the
shared field is kept. -/
theorem topmenu_reentry_refetches_and_preserves_row (env : Env) (fuel n row : Nat) :
    mainLoop env (fuel + 1) n row [] = ([listCmd], .starved .top, row) := rfl

/-- Claim C5 counterexample: with five VMs listed, selecting the fifth one
(top-menu row 5) enters the four-item actions menu with `current_row = 5`,
violating `selectedIndex < length(items)` at entry: the invariant is not
preserved across menu-context changes. -/
theorem menu_invariant_violated_on_entry_cex :
    appRun envFive 20
      [.key 0, .key KEY_DOWN, .key KEY_DOWN, .key KEY_DOWN, .key KEY_DOWN,
       .key KEY_DOWN, .key KEY_ENTER] =
      ([listCmd, listCmd, listCmd, listCmd, listCmd, listCmd], .starved .actions, 5)
    ∧ (actionsList "v5").length = 4 ∧ ¬(5 < 4) :=
  ⟨rfl, rfl, by decide⟩

/-- Claim C5 (amended): within a single menu loop the navigation is clamped:
from a row below `n` every key keeps the row below `n`, Up at row 0 and Down
at row `n - 1` are no-ops, Up-then-Down (and Down-then-Up) from an interior
row returns to it, and the `vm_actions` loop steps its row exactly by this
function; the invariant is only violated across menu-context entry/exit,
where the shared row is neither reset nor clamped. -/
theorem menu_navigation_clamped_within_bounds (n row k : Nat) :
    (row < n → menuStep n row k < n)
    ∧ menuStep n 0 KEY_UP = 0
    ∧ menuStep n (n - 1) KEY_DOWN = n - 1
    ∧ (0 < row → row < n - 1 → menuStep n (menuStep n row KEY_UP) KEY_DOWN = row)
    ∧ (0 < row → row < n - 1 → menuStep n (menuStep n row KEY_DOWN) KEY_UP = row)
    ∧ (∀ (env : Env) (vm : String) (fuel : Nat) (rest : List InEvent),
        vm_actions env vm (fuel + 1) row (.key KEY_UP :: rest) =
          vm_actions env vm fuel (menuStep (actionsList vm).length row KEY_UP) rest
        ∧ vm_actions env vm (fuel + 1) row (.key KEY_DOWN :: rest) =
          vm_actions env vm fuel (menuStep (actionsList vm).length row KEY_DOWN) rest) := by
  refine ⟨?_, ?_, ?_, ?_, ?_, ?_⟩
  · intro h
    simp only [menuStep, KEY_UP, KEY_DOWN]
    split_ifs <;> omega
  · simp only [menuStep, KEY_UP, KEY_DOWN]
    split_ifs <;> omega
  · simp only [menuStep, KEY_UP, KEY_DOWN]
    split_ifs <;> omega
  · intro h1 h2
    simp only [menuStep, KEY_UP, KEY_DOWN]
    norm_num
    split_ifs <;> omega
  · intro h1 h2
    simp only [menuStep, KEY_UP, KEY_DOWN]
    norm_num
    split_ifs <;> omega
  · intro env vm fuel rest
    constructor
    · by_cases h : 0 < row
      · simp [vm_actions, menuStep, KEY_UP, KEY_DOWN, KEY_ENTER, KEY_Q, h]
      · simp [vm_actions, menuStep, KEY_UP, KEY_DOWN, KEY_ENTER, KEY_Q, h]
    · by_cases h : row < (actionsList vm).length - 1
      · simp [vm_actions, menuStep, KEY_UP, KEY_DOWN, KEY_ENTER, KEY_Q, h]
      · simp [vm_actions, menuStep, KEY_UP, KEY_DOWN, KEY_ENTER, KEY_Q, h]

/-- Claim C5 witness: on the four-item actions menu, Up from row 1 then
Down returns to row 1. -/
theorem menu_navigation_clamped_within_bounds_app :
    menuStep 4 (menuStep 4 1 KEY_UP) KEY_DOWN = 1 :=
  (menu_navigation_clamped_within_bounds 4 1 KEY_UP).2.2.2.1 (by decide) (by decide)

/-- Claim C6 counterexample: for an empty line list and page size 5 the code
computes 0 pages, not the stated `max(1, ceil(L/P)) = 1`, and the stated
invariant `0 ≤ currentPage < totalPages` fails at the initial page 0. -/
theorem total_pages_empty_lines_cex :
    total_pages 0 5 = 0 ∧ specTotalPages 0 5 = 1
    ∧ total_pages 0 5 ≠ specTotalPages 0 5
    ∧ ¬((0 : Int) < total_pages 0 5) := by
  refine ⟨rfl, rfl, by decide, by decide⟩

/-- Claim C6 (amended): the page count is `ceil(L/P)` with no minimum — it
agrees with the spec's `max(1, ceil(L/P))` exactly when the line list is
non-empty, in which case it is at least 1, page 0 is a valid start, and the
viewer's scroll step keeps `0 ≤ currentPage < totalPages`; for an empty
list the count is 0 and the invariant fails. -/
theorem total_pages_ceil_and_page_invariant (L p : Nat) (hp : 1 ≤ p) :
    (1 ≤ L → total_pages L (p : Int) = specTotalPages L (p : Int)
      ∧ 1 ≤ total_pages L (p : Int))
    ∧ total_pages L (p : Int) = ((L + p - 1) / p : Nat)
    ∧ (∀ (t page : Int) (k : Nat), 0 ≤ page → page < t →
        0 ≤ viewerStep t page k ∧ viewerStep t page k < t)
    ∧ (∀ (fuel : Nat) (page : Int) (k : Nat) (rest : List InEvent), k ≠ KEY_Q →
        viewerLoop (total_pages L (p : Int)) (fuel + 1) page (.key k :: rest) =
          viewerLoop (total_pages L (p : Int)) fuel
            (viewerStep (total_pages L (p : Int)) page k) rest) := by
  have hcast : total_pages L (p : Int) = ((L + p - 1) / p : Nat) := by
    unfold total_pages
    rw [show (L : Int) + (p : Int) - 1 = ((L + p - 1 : Nat) : Int) by omega]
    exact (Int.ofNat_fdiv (L + p - 1) p).symm
  refine ⟨?_, hcast, ?_, ?_⟩
  · intro hL
    have h1 : 1 ≤ (L + p - 1) / p := by
      rw [Nat.le_div_iff_mul_le hp]
      omega
    have h1i : 1 ≤ total_pages L (p : Int) := by
      rw [hcast]
      exact_mod_cast h1
    refine ⟨?_, h1i⟩
    show total_pages L (p : Int) = max 1 (total_pages L (p : Int))
    omega
  · intro t page k h0 ht
    unfold viewerStep
    split_ifs <;> omega
  · intro fuel page k rest hk
    by_cases h1 : k = KEY_UP ∧ 0 < page
    · obtain ⟨rfl, hp2⟩ := h1
      simp [viewerLoop, viewerStep, KEY_UP, KEY_DOWN, hp2]
    · by_cases h2 : k = KEY_DOWN ∧ page < total_pages L (p : Int) - 1
      · obtain ⟨rfl, hp2⟩ := h2
        simp [viewerLoop, viewerStep, KEY_UP, KEY_DOWN, hp2, h1]
      · simp [viewerLoop, viewerStep, h1, h2, hk]

/-- Claim C6 witness: 7 lines at page size 3 give 3 pages, matching the
spec formula, and page 1 scrolled down then up is page 1 again. -/
theorem total_pages_ceil_and_page_invariant_app :
    (total_pages 7 3 = specTotalPages 7 3 ∧ 1 ≤ total_pages 7 3)
    ∧ total_pages 7 3 = ((7 + 3 - 1) / 3 : Nat) :=
  ⟨(total_pages_ceil_and_page_invariant 7 3 (by decide)).1 (by decide),
   (total_pages_ceil_and_page_invariant 7 3 (by decide)).2.1⟩

/-- Claim C7 counterexample: at terminal height 4 the computed page size is
0, not the stated `max(1, height - reserve) = 1`: it is not strictly
positive and the page-count division is a division by zero. -/
theorem page_size_height_four_cex :
    page_size 4 = 0 ∧ specPageSize 4 = 1
    ∧ page_size 4 ≠ specPageSize 4 ∧ ¬(0 < page_size 4) := by
  refine ⟨rfl, rfl, by decide, by decide⟩

/-- Claim C7 (amended): the page size is `height - 4` with no lower clamp:
it is strictly positive (and the page-count division well-defined) exactly
for heights of at least 5; at height 4 it is zero — the page-count division
is a division by zero — and below that it is negative. -/
theorem page_size_unclamped (h : Nat) :
    page_size h = (h : Int) - 4
    ∧ (5 ≤ h → 1 ≤ page_size h ∧ page_size h ≠ 0)
    ∧ (h = 4 → page_size h = 0)
    ∧ (h ≤ 3 → page_size h < 0) := by
  unfold page_size
  refine ⟨rfl, ?_, ?_, ?_⟩ <;> intro hh <;> omega

/-- Claim C7 witness: at height 30 the page size is positive. -/
theorem page_size_unclamped_app : 1 ≤ page_size 30 ∧ page_size 30 ≠ 0 :=
  (page_size_unclamped 30).2.1 (by decide)

/-- Claim C8 counterexample: pressing key 97 ('a') at the prompt and then
entering the line "bcd" resolves the field to "bcd" — the value does not
begin with the triggering key's character, because the decision `getch`
consumed and discarded it. -/
theorem entry_first_key_discarded_cex :
    resolveField "NewVM" [.key 97, .line "bcd"] = some (some "bcd", [])
    ∧ Char.ofNat 97 = 'a'
    ∧ "bcd".data.head? ≠ some 'a' :=
  ⟨rfl, rfl, by decide⟩

/-- Claim C8 (amended): a key other than `q` or the skip key starts
free-text entry, but the key itself is consumed by the decision read and
discarded: the field's value is exactly the line subsequently entered
(independent of which key triggered entry), and an empty entry is accepted
as given. -/
theorem entry_value_is_line_only (d : String) (k : Nat) (s : String)
    (rest : List InEvent) (hk1 : k ≠ KEY_Q) (hk2 : k ≠ KEY_SKIP) :
    resolveField d (.key k :: .line s :: rest) = some (some s, rest)
    ∧ (∀ k2, k2 ≠ KEY_Q → k2 ≠ KEY_SKIP →
        resolveField d (.key k :: .line s :: rest) =
          resolveField d (.key k2 :: .line s :: rest))
    ∧ resolveField d (.key k :: .line "" :: rest) = some (some "", rest) := by
  refine ⟨by simp [resolveField, hk1, hk2], ?_, by simp [resolveField, hk1, hk2]⟩
  intro k2 h1 h2
  simp [resolveField, hk1, hk2, h1, h2]

/-- Claim C8 witness: key 120 ('x') then the line "Debian_64" resolves the
OS-type field to "Debian_64". -/
theorem entry_value_is_line_only_app :
    resolveField "Ubuntu_64" [.key 120, .line "Debian_64"] =
      some (some "Debian_64", []) :=
  (entry_value_is_line_only "Ubuntu_64" 120 "Debian_64" [] (by decide) (by decide)).1

/-- Claim C9 counterexample: on a 4-row terminal, opening the info viewer
(splash key, Down, Enter into the actions menu at row 1, Enter on Show Info)
raises the page-size division by zero, which no handler catches: the whole
application terminates as `crashed` although no Exit/Quit was pressed. -/
theorem viewer_crash_terminates_app_cex :
    appRun envShort 10 [.key 0, .key KEY_DOWN, .key KEY_ENTER, .key KEY_ENTER] =
      ([listCmd, listCmd, ["VBoxManage", "showvminfo", "alpha"]], .crashed, 1) := rfl

/-- Claim C9 (amended): errors from failed provider commands inside the
creation wizard are caught there — the application returns to the top menu
and keeps running — but an error inside the info viewer (the page-size
division by zero on a 4-row terminal) propagates and terminates the whole
application. -/
theorem wizard_errors_contained_viewer_crashes :
    (∀ (env : Env) (n fuel : Nat),
      (env.run ["VBoxManage", "createvm", "--name", "NewVM", "--ostype",
        "Ubuntu_64", "--register"]).returncode ≠ 0 →
      mainLoop env (fuel + 2) n 0
        (.key KEY_ENTER :: .key KEY_SKIP :: .key KEY_SKIP :: .key KEY_SKIP ::
         .key KEY_SKIP :: .key KEY_SKIP :: .key KEY_SKIP :: .key 32 :: []) =
        ([listCmd,
          ["VBoxManage", "createvm", "--name", "NewVM", "--ostype", "Ubuntu_64", "--register"],
          listCmd], .starved .top, 0))
    ∧ (∀ (env : Env) (vm : String) (fuel : Nat) (rest : List InEvent),
      env.height = 4 →
      vm_actions env vm (fuel + 1) 1 (.key KEY_ENTER :: rest) =
        ([["VBoxManage", "showvminfo", vm]], .diedA .crashed 1)) := by
  constructor
  · intro env n fuel hfail
    have hrun : runCommands env.run (commands defaultRequest) =
        ([["VBoxManage", "createvm", "--name", "NewVM", "--ostype", "Ubuntu_64", "--register"]],
         some (errorMsg
           ["VBoxManage", "createvm", "--name", "NewVM", "--ostype", "Ubuntu_64", "--register"]
           (env.run ["VBoxManage", "createvm", "--name", "NewVM", "--ostype",
             "Ubuntu_64", "--register"]).stderr)) := by
      simp [runCommands, commands, defaultRequest, hfail]
    have hcv : create_vm env.run
        (.key KEY_SKIP :: .key KEY_SKIP :: .key KEY_SKIP :: .key KEY_SKIP ::
         .key KEY_SKIP :: .key KEY_SKIP :: .key 32 :: []) =
        ([["VBoxManage", "createvm", "--name", "NewVM", "--ostype", "Ubuntu_64", "--register"]],
         .finished []) := by
      show ((runCommands env.run (commands defaultRequest)).1, WizOut.finished []) = _
      rw [hrun]
    show (listCmd ::
        ((create_vm env.run (.key KEY_SKIP :: .key KEY_SKIP :: .key KEY_SKIP :: .key KEY_SKIP ::
          .key KEY_SKIP :: .key KEY_SKIP :: .key 32 :: [])).1 ++
         (mainLoop env (fuel + 1) (n + 1) 0 []).1),
       (mainLoop env (fuel + 1) (n + 1) 0 []).2) = _
    rw [hcv, mainLoop_nil]
    rfl
  · intro env vm fuel rest h4
    simp [vm_actions, page_size, h4, KEY_UP, KEY_DOWN, KEY_ENTER, KEY_Q]

/-- Claim C9 witness: a world where every command fails still returns to
the top menu after the wizard, and a concrete 4-row world crashes on Show
Info. -/
theorem wizard_errors_contained_viewer_crashes_app :
    mainLoop envAllFail 5 0 0
      (.key KEY_ENTER :: .key KEY_SKIP :: .key KEY_SKIP :: .key KEY_SKIP ::
       .key KEY_SKIP :: .key KEY_SKIP :: .key KEY_SKIP :: .key 32 :: []) =
      ([listCmd,
        ["VBoxManage", "createvm", "--name", "NewVM", "--ostype", "Ubuntu_64", "--register"],
        listCmd], .starved .top, 0)
    ∧ vm_actions envShortEmpty "beta" 3 1 [.key KEY_ENTER] =
      ([["VBoxManage", "showvminfo", "beta"]], .diedA .crashed 1) :=
  ⟨(wizard_errors_contained_viewer_crashes).1 envAllFail 0 3 (by decide),
   (wizard_errors_contained_viewer_crashes).2 envShortEmpty "beta" 2 [] rfl⟩

/-- Claim C10: once free-text entry has begun, a typed `q` is an ordinary
character: any entered line — `q`s included — becomes the field value and is
passed verbatim into the provider commands; an abort can only arise from `q`
at the single decision-key read of a prompt. -/
theorem typed_q_not_abort_passed_verbatim :
    (∀ (d : String) (k : Nat) (s : String) (rest : List InEvent),
      k ≠ KEY_Q → k ≠ KEY_SKIP →
      resolveField d (.key k :: .line s :: rest) = some (some s, rest))
    ∧ (∀ (d : String) (input rest : List InEvent),
      resolveField d input = some (none, rest) → input = .key KEY_Q :: rest)
    ∧ (∀ (runner : List String → CmdResult) (k : Nat) (s : String) (rest : List InEvent),
      k ≠ KEY_Q → k ≠ KEY_SKIP →
      (∀ c ∈ commands ⟨s, "Ubuntu_64", "1024", "2", "128", "10240"⟩,
        (runner c).returncode = 0) →
      create_vm runner
        (.key k :: .line s :: .key KEY_SKIP :: .key KEY_SKIP :: .key KEY_SKIP ::
         .key KEY_SKIP :: .key KEY_SKIP :: .key 32 :: rest) =
        (commands ⟨s, "Ubuntu_64", "1024", "2", "128", "10240"⟩, .finished rest)) := by
  refine ⟨?_, ?_, ?_⟩
  · intro d k s rest h1 h2
    simp [resolveField, h1, h2]
  · intro d input rest h
    match input with
    | [] => simp [resolveField] at h
    | .line s :: tl => simp [resolveField] at h
    | .key k :: tl =>
      by_cases hq : k = KEY_Q
      · subst hq
        have hh : (some (none, tl) : Option (Option String × List InEvent)) =
            some (none, rest) := h
        simp only [Option.some.injEq, Prod.mk.injEq, true_and] at hh
        rw [hh]
      · by_cases hs : k = KEY_SKIP
        · subst hs
          simp [resolveField, hq] at h
        · match tl with
          | [] => simp [resolveField, hq, hs] at h
          | .key k2 :: tl2 => simp [resolveField, hq, hs] at h
          | .line s :: tl2 => simp [resolveField, hq, hs] at h
  · intro runner k s rest h1 h2 h
    have hrc := runCommands_allOk runner
      (commands ⟨s, "Ubuntu_64", "1024", "2", "128", "10240"⟩) h
    have hbs : ∀ b ∈ [FieldInput.entry k s, FieldInput.skip, FieldInput.skip,
        FieldInput.skip, FieldInput.skip, FieldInput.skip], b.valid := by
      intro b hb
      simp only [List.mem_cons, List.not_mem_nil, or_false] at hb
      rcases hb with rfl | rfl | rfl | rfl | rfl | rfl
      · exact ⟨h1, h2⟩
      all_goals exact trivial
    have hres0 := resolveFields_blocks
      [FieldInput.entry k s, FieldInput.skip, FieldInput.skip,
       FieldInput.skip, FieldInput.skip, FieldInput.skip]
      wizardDefaults (.key 32 :: rest) hbs rfl
    have hres : resolveFields wizardDefaults
        (.key k :: .line s :: .key KEY_SKIP :: .key KEY_SKIP :: .key KEY_SKIP ::
         .key KEY_SKIP :: .key KEY_SKIP :: .key 32 :: rest) =
        some (some [s, "Ubuntu_64", "1024", "2", "128", "10240"], .key 32 :: rest) := hres0
    rw [create_vm, hres]
    dsimp only
    rw [hrc]

/-- Claim C10 witness: key 107 ('k') then the line "quit" resolves the name
to "quit" — the `q` characters abort nothing and "quit" appears verbatim in
the issued commands. -/
theorem typed_q_not_abort_passed_verbatim_app :
    create_vm okRun
      (.key 107 :: .line "quit" :: .key KEY_SKIP :: .key KEY_SKIP :: .key KEY_SKIP ::
       .key KEY_SKIP :: .key KEY_SKIP :: .key 32 :: []) =
      (commands ⟨"quit", "Ubuntu_64", "1024", "2", "128", "10240"⟩, .finished []) :=
  typed_q_not_abort_passed_verbatim.2.2 okRun 107 "quit" [] (by decide) (by decide) (by decide)

end Claims

end VBoxManager
